import Mathlib

/-!
Verification development for the az-burrow tunnel and certificate managers.

The Go sources embedded here are `internal/azure/tunnel.go` and
`internal/azure/cert.go`.  Durations (Go `time.Duration`) are modelled as
`Int` nanoseconds; instants (Go `time.Time`) as `Int` nanoseconds since an
arbitrary epoch, so `time.Until(e)` becomes `e - now`.  Go buffered
channels become `List` queues of capacity 10: a plain Go send `ch <- x`
becomes `chanSend`, whose `none` result models the sender blocking on a
full buffer, and a `select \x7b case ch <- x: default: \x7d` send becomes
`trySend`, which drops the element when the buffer is full.  Go maps keyed
by tunnel index become association lists.  External effects (pipe
creation, process spawn and exit, the `az` subprocess, the kill calls)
are supplied as explicit oracle arguments.
-/

set_option linter.unusedVariables false

namespace AzBurrow

/-- Byte-wise leading match: `leadMatch hay needle` is true when `needle`
is a prefix of `hay`.  Helper for the Go `strings.Contains` calls in
`tunnel.go`; strings are compared character by character (the patterns in
the source are ASCII). -/
def leadMatch : List Char → List Char → Bool
  | _, [] => true
  | [], _ :: _ => false
  | a :: as, b :: bs => a == b && leadMatch as bs

/-- `hasSublist hay needle` is true when `needle` occurs contiguously in
`hay`; embeds Go `strings.Contains`. -/
def hasSublist : List Char → List Char → Bool
  | [], needle => needle.isEmpty
  | h :: t, needle => leadMatch (h :: t) needle || hasSublist t needle

/-- Go `strings.Contains(s, sub)`. -/
def strContains (s sub : String) : Bool :=
  hasSublist s.data sub.data

/-- Go `strings.ToLower(s)` (the classification patterns are ASCII, so
per-character lowering is faithful). -/
def strToLower (s : String) : String :=
  ⟨s.data.map Char.toLower⟩

/-- A plain Go channel send `ch <- x` on a buffered channel of capacity
`cap` with no ready receiver: the element is enqueued when there is room;
`none` models the sender blocking until a consumer frees a slot. -/
def chanSend {α : Type} (cap : Nat) (q : List α) (x : α) : Option (List α) :=
  if q.length < cap then some (q ++ [x]) else none

/-- A Go `select \x7b case ch <- x: default: \x7d` send: non-blocking, the
element is silently dropped when the buffer is full. -/
def trySend {α : Type} (cap : Nat) (q : List α) (x : α) : List α :=
  if q.length < cap then q ++ [x] else q

/-! ## Tunnel manager (`internal/azure/tunnel.go`) -/

/-- `types.Machine` from `internal/types/tunnel.go`. -/
structure Machine where
  Name : String
  ResourceGroup : String
  TargetResourceID : String
  BastionName : String
  BastionResourceGroup : String
  BastionSubscription : String
  SSHConfigPath : String
deriving DecidableEq

/-- `types.Tunnel` from `internal/types/tunnel.go`. -/
structure Tunnel where
  ID : Int
  Machine : Machine
  LocalPort : String
  RemotePort : String
  Status : String
  CertStatus : String
  CertExpiresIn : String
deriving DecidableEq

/-- `TunnelProcess` (tunnel.go lines 24-32).  The `Cmd` and `Cancel`
handles are external resources and are not part of the state; the two
event channels and the log buffer are. -/
structure TunnelProcess where
  StatusCh : List String
  ErrorCh : List String
  Logs : List String
  LocalPort : String
deriving DecidableEq

/-- `TunnelManager` (tunnel.go lines 18-21): the map of tunnel index to
process, as an association list. -/
structure TunnelManager where
  tunnels : List (Int × TunnelProcess)
deriving DecidableEq

/-- `NewTunnelManager` (tunnel.go lines 35-39). -/
def NewTunnelManager : TunnelManager :=
  { tunnels := [] }

/-- The synchronous failure modes of `StartTunnel` (tunnel.go lines
45-88): duplicate start, pipe creation failures, spawn failure. -/
inductive StartErr where
  | alreadyRunning
  | stdoutPipeFailed
  | stderrPipeFailed
  | startFailed
deriving DecidableEq

/-- Oracle for the external effects of `StartTunnel`: whether each pipe
creation and the process spawn succeed. -/
structure SpawnEnv where
  stdoutPipeOk : Bool
  stderrPipeOk : Bool
  startOk : Bool
deriving DecidableEq

/-- The argument list built for the `az` subprocess (tunnel.go lines
55-62). -/
def buildArgs (tunnel : Tunnel) : List String :=
  ["network", "bastion", "tunnel",
   "--name", tunnel.Machine.BastionName,
   "--resource-group", tunnel.Machine.BastionResourceGroup,
   "--target-resource-id", tunnel.Machine.TargetResourceID,
   "--resource-port", tunnel.RemotePort,
   "--port", tunnel.LocalPort]

/-- `TunnelManager.StartTunnel` (tunnel.go lines 42-105, the synchronous
part up to returning the channels).  On the duplicate-start branch the
function returns before any allocation or mutation.  On success the new
process record is stored in the map and the initial `Connecting...`
status is sent on the fresh capacity-10 status channel (tunnel.go line
105; the fresh channel has room, so the blocking send completes). -/
def StartTunnel (tm : TunnelManager) (index : Int) (tunnel : Tunnel)
    (env : SpawnEnv) : TunnelManager × Except StartErr TunnelProcess :=
  match tm.tunnels.lookup index with
  | some _ => (tm, Except.error StartErr.alreadyRunning)
  | none =>
    if !env.stdoutPipeOk then (tm, Except.error StartErr.stdoutPipeFailed)
    else if !env.stderrPipeOk then (tm, Except.error StartErr.stderrPipeFailed)
    else if !env.startOk then (tm, Except.error StartErr.startFailed)
    else
      let tp0 : TunnelProcess :=
        { StatusCh := [], ErrorCh := [], Logs := [], LocalPort := tunnel.LocalPort }
      let tp : TunnelProcess :=
        { tp0 with StatusCh := (chanSend 10 tp0.StatusCh "Connecting...").getD tp0.StatusCh }
      ({ tunnels := (index, tp) :: tm.tunnels }, Except.ok tp)

/-- One tunnel output line classifies to at most a status event and, on
stderr, possibly an error event. -/
inductive TunnelEvent where
  | status (s : String)
  | err (message : String)
deriving DecidableEq

/-- The status classification shared by the stdout and stderr readers
(tunnel.go lines 122-127 and 145-150): ready phrases map to `Active`,
the opening phrase to `Connecting...`, anything else to nothing. -/
def classifyStatus (line : String) : Option String :=
  if strContains line "Tunnel is ready" || strContains line "connect on port" then
    some "Active"
  else if strContains line "Opening tunnel" then
    some "Connecting..."
  else none

/-- The error test of the stderr reader (tunnel.go line 152):
case-insensitive `error` or `failed` substring. -/
def isErrorLine (line : String) : Bool :=
  strContains (strToLower line) "error" || strContains (strToLower line) "failed"

/-- Events emitted for one stdout line (tunnel.go lines 122-127): at most
one status event, never an error event. -/
def stdoutEvents (line : String) : List TunnelEvent :=
  match classifyStatus line with
  | some s => [TunnelEvent.status s]
  | none => []

/-- Events emitted for one stderr line (tunnel.go lines 136-155): empty
lines are skipped; otherwise the status test and the error test run
independently, so one line can emit a status event and an error event. -/
def stderrEvents (line : String) : List TunnelEvent :=
  if line = "" then []
  else
    (match classifyStatus line with
     | some s => [TunnelEvent.status s]
     | none => []) ++
    (if isErrorLine line then [TunnelEvent.err line] else [])

/-- The log append of the stream readers (tunnel.go lines 115-119 and
139-142): append, then keep only the last 100 lines. -/
def appendLog (logs : List String) (line : String) : List String :=
  if 100 < (logs ++ [line]).length then
    (logs ++ [line]).drop ((logs ++ [line]).length - 100)
  else logs ++ [line]

/-- One iteration of the stdout reader loop (tunnel.go lines 110-127):
the line is stored with an `[OUT] ` prefix whether or not it matches, and
the classification events are produced. -/
def processStdoutLine (tp : TunnelProcess) (line : String) :
    TunnelProcess × List TunnelEvent :=
  ({ tp with Logs := appendLog tp.Logs ("[OUT] " ++ line) }, stdoutEvents line)

/-- One iteration of the stderr reader loop (tunnel.go lines 134-155):
empty lines are skipped entirely; a nonempty line is stored verbatim
whether or not it matches, and the classification events are produced. -/
def processStderrLine (tp : TunnelProcess) (line : String) :
    TunnelProcess × List TunnelEvent :=
  if line = "" then (tp, [])
  else ({ tp with Logs := appendLog tp.Logs line }, stderrEvents line)

/-- The log append performed by the process-wait goroutine on abnormal
exit (tunnel.go lines 163-165).  Note: plain `append`, with no 100-line
trim. -/
def processExitLog (logs : List String) (errText : String) : List String :=
  logs ++ ["[ERR] Process exited: " ++ errText]

/-- A status publication on a per-tunnel status channel: the source uses
a plain blocking send `statusCh <- s` (tunnel.go lines 105, 124, 126,
147, 149). -/
def publishTunnelStatus (q : List String) (s : String) : Option (List String) :=
  chanSend 10 q s

/-- An error publication on a per-tunnel error channel: the source uses a
plain blocking send `errorCh <- err` (tunnel.go lines 153, 166). -/
def publishTunnelError (q : List String) (e : String) : Option (List String) :=
  chanSend 10 q e

/-- The failure mode of `StopTunnel` (tunnel.go line 186). -/
inductive StopErr where
  | notRunning
deriving DecidableEq

/-- `TunnelManager.StopTunnel` (tunnel.go lines 180-215).  `killOk`,
`isWindows` and `winKillOk` are oracles for `Process.Kill` and the
Windows port-based fallback kill; their failures only append warnings to
the log buffer of the handle that is about to be removed (tunnel.go
lines 192-196 and 200-207, plain appends with no trim), and the handle
is removed from the map and `nil` returned regardless. -/
def StopTunnel (tm : TunnelManager) (index : Int)
    (killOk isWindows winKillOk : Bool) : TunnelManager × Option StopErr :=
  match tm.tunnels.lookup index with
  | none => (tm, some StopErr.notRunning)
  | some tp =>
      let tp1 :=
        if killOk then tp
        else { tp with Logs := tp.Logs ++ ["[WARN] Failed to kill process"] }
      let tp2 :=
        if isWindows && !winKillOk then
          { tp1 with Logs := tp1.Logs ++ ["[WARN] Failed to kill Windows process by port"] }
        else tp1
      ({ tunnels := tm.tunnels.filter (fun p => p.1 != index) }, none)

/-! ## Certificate manager (`internal/azure/cert.go`) -/

/-- One nanosecond is the unit of Go `time.Duration`. -/
def nsPerSecond : Int := 1000000000

/-- `CertLifetime` (cert.go line 51): 1 hour. -/
def CertLifetime : Int := 3600 * nsPerSecond

/-- `RenewalWindow` (cert.go line 52): 5 minutes. -/
def RenewalWindow : Int := 300 * nsPerSecond

/-- `RenewalRetryDelay` (cert.go line 53): 30 seconds. -/
def RenewalRetryDelay : Int := 30 * nsPerSecond

/-- `CheckInterval` (cert.go line 54): 1 minute. -/
def CheckInterval : Int := 60 * nsPerSecond

/-- `CertInfo` (cert.go lines 30-40); instants are `Int` nanoseconds. -/
structure CertInfo where
  VMName : String
  SSHConfigPath : String
  PublicKeyPath : String
  CertPath : String
  CreatedAt : Int
  ExpiresAt : Int
  LastRenewalTry : Int
  RenewalStatus : String
deriving DecidableEq

/-- `CertStatus` (cert.go lines 43-48), the event published on the shared
certificate-status queue. -/
structure CertStatus where
  VMName : String
  Status : String
  Message : String
  ExpiresIn : Int
deriving DecidableEq

/-- `getRenewalStatus` (cert.go lines 410-419).  The source computes
`time.Until(expiresAt)`; here the current instant is an explicit
argument and `timeUntil = expiresAt - now`. -/
def getRenewalStatus (now expiresAt : Int) : String :=
  let timeUntil := expiresAt - now
  if timeUntil ≤ 0 then "expired"
  else if timeUntil ≤ RenewalWindow then "expiring_soon"
  else "valid"

/-- A publication on the shared certificate-status queue: every send in
cert.go (lines 136-144, 196-204, 240-247, 266-273, 290-298, 370-378) is
a `select \x7b case ch <- x: default: \x7d`, hence drop-on-full. -/
def publishCertStatus (q : List CertStatus) (e : CertStatus) : List CertStatus :=
  trySend 10 q e

/-- Outcome of running the external `az ssh cert` command
(`cmd.CombinedOutput()`): combined output plus, on failure, the error
text. -/
inductive CmdResult where
  | ok (output : String)
  | err (output : String) (errText : String)
deriving DecidableEq

/-- The status-changed event built in `checkAndRenewCertificates`
(cert.go lines 196-204). -/
def mkStatusChangedEvent (cert : CertInfo) (now : Int) (newStatus : String) : CertStatus :=
  { VMName := cert.VMName, Status := newStatus,
    Message := "Certificate status changed to: " ++ newStatus,
    ExpiresIn := cert.ExpiresAt - now }

/-- The renewal-firing decision of `checkAndRenewCertificates` (cert.go
lines 210-221): always fire when past expiry; inside the 5-minute window
fire only when the last attempt is at least 30 seconds old; otherwise do
not fire. -/
def shouldRenew (now expiresAt lastTry : Int) : Bool :=
  let timeUntilExpiry := expiresAt - now
  if timeUntilExpiry ≤ 0 then true
  else if timeUntilExpiry ≤ RenewalWindow then decide (RenewalRetryDelay ≤ now - lastTry)
  else false

/-- The per-certificate body of `checkAndRenewCertificates` (cert.go
lines 180-226): recompute the time-derived status, overwrite the stored
status and attempt a status-changed event when it differs, and report
whether a renewal attempt is fired.  Returns (updated record, updated
queue, fired). -/
def certTick (now : Int) (cert : CertInfo) (q : List CertStatus) :
    CertInfo × List CertStatus × Bool :=
  let newStatus := getRenewalStatus now cert.ExpiresAt
  let updated :=
    if newStatus ≠ cert.RenewalStatus then
      ({ cert with RenewalStatus := newStatus },
       publishCertStatus q (mkStatusChangedEvent cert now newStatus))
    else (cert, q)
  (updated.1, updated.2, shouldRenew now cert.ExpiresAt cert.LastRenewalTry)

/-- `CertificateManager.renewCertificate` (cert.go lines 230-299).
`parseExpiry` abstracts `parseExpiryFromOutput` (the regex over
`is valid until YYYY-MM-DD HH:MM:SS in local time` plus calendar
parsing), returning an instant in nanoseconds when the output matches;
the wall-clock formatting inside the messages is abstracted as
`toString` of the instant.  The call runs at instant `now`.  Returns the
updated record and the updated shared status queue. -/
def renewCertificate (parseExpiry : String → Option Int) (now : Int)
    (cert : CertInfo) (q : List CertStatus) (result : CmdResult) :
    CertInfo × List CertStatus :=
  let cert1 := { cert with LastRenewalTry := now, RenewalStatus := "renewing" }
  let q1 := publishCertStatus q
    { VMName := cert.VMName, Status := "renewing",
      Message := "Attempting to renew certificate...", ExpiresIn := 0 }
  match result with
  | CmdResult.err output errText =>
      let cert2 := { cert1 with RenewalStatus := "renewal_failed" }
      let errMsg := if output = "" then errText else output
      let q2 := publishCertStatus q1
        { VMName := cert.VMName, Status := "renewal_failed",
          Message := "Certificate renewal failed: " ++ errMsg, ExpiresIn := 0 }
      (cert2, q2)
  | CmdResult.ok output =>
      let expiresAt := (parseExpiry output).getD (now + CertLifetime)
      let cert2 :=
        { cert1 with CreatedAt := now, ExpiresAt := expiresAt, RenewalStatus := "valid" }
      let q2 := publishCertStatus q1
        { VMName := cert.VMName, Status := "renewed",
          Message := "Certificate renewed successfully! Expires at: " ++ toString expiresAt,
          ExpiresIn := expiresAt - now }
      (cert2, q2)

/-- The instant of the k-th ticker firing of `monitorLoop` (cert.go lines
155-167): `time.NewTicker(CheckInterval)` first fires one full interval
after `t0`. -/
def tickTime (t0 : Int) (k : Nat) : Int :=
  t0 + CheckInterval * ((k : Int) + 1)

/-- The instants at which the scheduler fires renewal attempts for one
certificate over the first `n` ticks.  `obs k` is the pair
`(ExpiresAt, LastRenewalTry)` the tick at `tickTime t0 k` observes in
the record; it is an oracle because concurrent renewal goroutines mutate
both fields between ticks.  A tick fires at most one attempt per
identity because `checkAndRenewCertificates` visits each map entry
once. -/
def fireTimes (t0 : Int) (obs : Nat → Int × Int) : Nat → List Int
  | 0 => []
  | n + 1 =>
      fireTimes t0 obs n ++
        (if shouldRenew (tickTime t0 n) (obs n).1 (obs n).2 then [tickTime t0 n] else [])

/-- `filepath.Join(a, b)`, abstracted as separator concatenation (the
lexical `Clean` normalisation is irrelevant to the claims). -/
def pathJoin (a b : String) : String :=
  a ++ "/" ++ b

/-- Go `strings.HasPrefix(s, pre)` (byte-wise; the paths of interest are
ASCII, so characters stand for bytes). -/
def strStarts (s pre : String) : Bool :=
  leadMatch s.data pre.data

/-- The Go slice `s[n:]` on an ASCII string. -/
def strDrop (s : String) (n : Nat) : String :=
  ⟨s.data.drop n⟩

/-- The home-directory expansion performed at the top of both
`RegisterCertificate` (cert.go lines 75-81) and `GenerateCertificate`
(cert.go lines 305-319): when the path starts with `~`, it is replaced
by `filepath.Join(homeDir, path[2:])`.  The Go slice `path[2:]` is out
of range when the path is shorter than two bytes, a runtime panic,
modelled as `none`. -/
def expandHome (home path : String) : Option String :=
  if strStarts path "~" then
    if path.length < 2 then none
    else some (pathJoin home (strDrop path 2))
  else some path

/-- A concrete machine record used by the concrete-input witnesses. -/
def sampleMachine : Machine :=
  ⟨"vm", "rg", "tid", "bastion", "brg", "", ""⟩

/-- A concrete tunnel spec used by the concrete-input witnesses. -/
def sampleTunnel : Tunnel :=
  ⟨0, sampleMachine, "2022", "22", "Inactive", "valid", ""⟩

/-- A concrete live tunnel process used by the concrete-input witnesses. -/
def sampleProcess : TunnelProcess :=
  ⟨["Connecting..."], [], ["[OUT] hello"], "2022"⟩

/-- A concrete one-entry manager used by the concrete-input witnesses. -/
def sampleTM : TunnelManager :=
  ⟨[(0, sampleProcess)]⟩

/-- A concrete certificate-status event used by the concrete-input
witnesses. -/
def sampleEvent : CertStatus :=
  ⟨"vm", "valid", "", 0⟩

/-- A concrete certificate record used by the concrete-input witnesses. -/
def sampleCert : CertInfo :=
  ⟨"vm", "/home/u/.ssh/az_ssh_config/vm", "/home/u/.ssh/az_ssh_config/vm/id_rsa.pub",
   "/home/u/.ssh/az_ssh_config/vm/id_rsa.pub-aadcert.pub",
   0, 1000 * nsPerSecond, 0, "renewing"⟩

/-! ## Theorems -/

/-- Key is absent from an association list when `lookup` misses. -/
theorem lookup_none_notMem (l : List (Int × TunnelProcess)) (i : Int)
    (h : l.lookup i = none) : ∀ p ∈ l, p.1 ≠ i := by
  induction l with
  | nil => intro p hp; cases hp
  | cons a t ih =>
      rw [List.lookup] at h
      by_cases hai : i = a.1
      · simp [hai] at h
      · have hbe : (i == a.1) = false := by
          simpa using hai
        simp only [hbe, Bool.false_eq_true, if_false] at h
        intro p hp
        rw [List.mem_cons] at hp
        rcases hp with hp | hp
        · subst hp
          intro hcontra
          exact hai hcontra.symm
        · exact ih h p hp

/-- C1: a `StartTunnel` on an index that already has a live handle fails
with `AlreadyRunning` and changes nothing: the manager state (hence the
active-tunnel map, the stored handle and its log buffer) is returned
untouched.  Moreover `StartTunnel` preserves key-uniqueness of the map,
so at most one handle per identity ever exists. -/
theorem startTunnel_alreadyRunning_no_side_effects
    (tm : TunnelManager) (index : Int) (tunnel : Tunnel) (env : SpawnEnv)
    (tp : TunnelProcess) :
    (tm.tunnels.lookup index = some tp →
      StartTunnel tm index tunnel env = (tm, Except.error StartErr.alreadyRunning) ∧
      (StartTunnel tm index tunnel env).1.tunnels.lookup index = some tp) ∧
    ((tm.tunnels.map Prod.fst).Nodup →
      ((StartTunnel tm index tunnel env).1.tunnels.map Prod.fst).Nodup) := by
  constructor
  · intro h
    constructor
    · unfold StartTunnel
      rw [h]
    · unfold StartTunnel
      rw [h]
      exact h
  · intro hnd
    unfold StartTunnel
    cases hlk : tm.tunnels.lookup index with
    | some tp' => exact hnd
    | none =>
        cases henv1 : env.stdoutPipeOk with
        | false => simpa using hnd
        | true =>
          cases henv2 : env.stderrPipeOk with
          | false => simpa using hnd
          | true =>
            cases henv3 : env.startOk with
            | false => simpa using hnd
            | true =>
              simp only [henv1, henv2, henv3, Bool.not_true, Bool.false_eq_true,
                if_false, List.map_cons, List.nodup_cons]
              refine ⟨?_, hnd⟩
              intro hmem
              rcases List.mem_map.mp hmem with ⟨p, hp, hpk⟩
              exact lookup_none_notMem tm.tunnels index hlk p hp hpk

/-- Witness for C1 at a concrete one-entry manager. -/
theorem startTunnel_alreadyRunning_witness :
    StartTunnel sampleTM 0 sampleTunnel ⟨true, true, true⟩ =
        (sampleTM, Except.error StartErr.alreadyRunning) ∧
      (StartTunnel sampleTM 0 sampleTunnel ⟨true, true, true⟩).1.tunnels.lookup 0 =
        some sampleProcess :=
  (startTunnel_alreadyRunning_no_side_effects sampleTM 0 sampleTunnel
    ⟨true, true, true⟩ sampleProcess).1 rfl

/-- C2 counterexample: on the per-tunnel status queue the source uses a
plain blocking send, so publishing `Active` onto a full capacity-10
queue does not drop the event and proceed with the queue unchanged — the
publisher blocks (no non-blocking result exists). -/
theorem tunnelPublish_blocks_on_full_queue :
    publishTunnelStatus (List.replicate 10 "Connecting...") "Active" = none ∧
      publishTunnelStatus (List.replicate 10 "Connecting...") "Active" ≠
        some (List.replicate 10 "Connecting...") := by
  constructor
  · rfl
  · intro h
    exact Option.noConfusion (((rfl :
      publishTunnelStatus (List.replicate 10 "Connecting...") "Active" = none) ▸ h))

/-- C2 amended: only the shared certificate-status queue is published
with a non-blocking drop-on-full send; the per-tunnel status and error
queues use plain sends that enqueue when there is room and block the
publisher when the capacity-10 queue is full. -/
theorem publish_semantics_per_queue :
    ∀ (q : List CertStatus) (e : CertStatus) (q2 : List String) (s e2 : String),
      (10 ≤ q.length → publishCertStatus q e = q) ∧
      (q.length < 10 → publishCertStatus q e = q ++ [e]) ∧
      (10 ≤ q2.length →
        publishTunnelStatus q2 s = none ∧ publishTunnelError q2 e2 = none) ∧
      (q2.length < 10 →
        publishTunnelStatus q2 s = some (q2 ++ [s]) ∧
        publishTunnelError q2 e2 = some (q2 ++ [e2])) := by
  intro q e q2 s e2
  refine ⟨?_, ?_, ?_, ?_⟩ <;> intro h
  · simp [publishCertStatus, trySend, Nat.not_lt.mpr h]
  · simp [publishCertStatus, trySend, h]
  · constructor <;> simp [publishTunnelStatus, publishTunnelError, chanSend, Nat.not_lt.mpr h]
  · constructor <;> simp [publishTunnelStatus, publishTunnelError, chanSend, h]

/-- Witness for the amended C2 at concrete queues. -/
theorem publish_semantics_witness :
    publishCertStatus (List.replicate 10 sampleEvent) sampleEvent =
        List.replicate 10 sampleEvent ∧
      publishTunnelStatus [] "Active" = some ["Active"] :=
  ⟨(publish_semantics_per_queue (List.replicate 10 sampleEvent) sampleEvent [] "Active" "x").1
      (by decide),
   ((publish_semantics_per_queue (List.replicate 10 sampleEvent) sampleEvent [] "Active" "x").2.2.2
      (by decide)).1⟩

/-- C3 counterexample: the stderr reader runs the status test and the
error test independently, so the single secondary-stream line
`Tunnel is ready: error` emits two events, an `Active` status and an
error. -/
theorem stderr_line_two_events :
    stderrEvents "Tunnel is ready: error" =
        [TunnelEvent.status "Active", TunnelEvent.err "Tunnel is ready: error"] ∧
      ¬ (stderrEvents "Tunnel is ready: error").length ≤ 1 := by
  constructor
  · rfl
  · rw [(rfl : stderrEvents "Tunnel is ready: error" =
      [TunnelEvent.status "Active", TunnelEvent.err "Tunnel is ready: error"])]
    decide

/-- C3 amended: a primary-stream line yields at most one (status) event,
with the claimed phrase mapping; a secondary-stream line yields at most
two events: at most one status event and, independently, at most one
error event when the line contains `error` or `failed`
case-insensitively, so a line matching both a status phrase and an error
substring yields both events. -/
theorem classification_events_per_line :
    ∀ line : String,
      (stdoutEvents line).length ≤ 1 ∧
      (stderrEvents line).length ≤ 2 ∧
      ((strContains line "Tunnel is ready" || strContains line "connect on port") = true →
        stdoutEvents line = [TunnelEvent.status "Active"]) ∧
      ((strContains line "Tunnel is ready" || strContains line "connect on port") = false →
        strContains line "Opening tunnel" = true →
        stdoutEvents line = [TunnelEvent.status "Connecting..."]) ∧
      ((strContains line "Tunnel is ready" || strContains line "connect on port") = false →
        strContains line "Opening tunnel" = false →
        stdoutEvents line = []) ∧
      (line ≠ "" → isErrorLine line = true → TunnelEvent.err line ∈ stderrEvents line) ∧
      (line ≠ "" →
        (strContains line "Tunnel is ready" || strContains line "connect on port") = true →
        isErrorLine line = true →
        stderrEvents line = [TunnelEvent.status "Active", TunnelEvent.err line]) := by
  intro line
  refine ⟨?_, ?_, ?_, ?_, ?_, ?_, ?_⟩
  · cases h : classifyStatus line <;> simp [stdoutEvents, h]
  · by_cases he : line = ""
    · simp [stderrEvents, he]
    · cases h : classifyStatus line <;> cases h2 : isErrorLine line <;>
        simp [stderrEvents, he, h, h2]
  · intro h
    simp [stdoutEvents, classifyStatus, h]
  · intro h h2
    simp [stdoutEvents, classifyStatus, h, h2]
  · intro h h2
    simp [stdoutEvents, classifyStatus, h, h2]
  · intro he h
    cases h2 : classifyStatus line <;> simp [stderrEvents, he, h, h2]
  · intro he h h2
    simp [stderrEvents, classifyStatus, he, h, h2]

/-- Witness for the amended C3 at concrete lines. -/
theorem classification_events_witness :
    stdoutEvents "Opening tunnel..." = [TunnelEvent.status "Connecting..."] ∧
      TunnelEvent.err "login failed" ∈ stderrEvents "login failed" :=
  ⟨(classification_events_per_line "Opening tunnel...").2.2.2.1 (by decide) (by decide),
   (classification_events_per_line "login failed").2.2.2.2.2.1 (by decide) (by decide)⟩

/-- The buffer length after a ring append: one more than before, capped
at 100. -/
theorem appendLog_length (logs : List String) (line : String) :
    (appendLog logs line).length = min (logs.length + 1) 100 := by
  unfold appendLog
  by_cases h : 100 < (logs ++ [line]).length
  · rw [if_pos h]
    simp only [List.length_drop, List.length_append, List.length_singleton] at *
    omega
  · rw [if_neg h]
    simp only [List.length_append, List.length_singleton] at *
    omega

/-- Buffers that start within capacity stay within capacity under any
sequence of ring appends. -/
theorem foldl_appendLog_le (lines : List String) :
    ∀ logs : List String, logs.length ≤ 100 →
      (List.foldl appendLog logs lines).length ≤ 100 := by
  induction lines with
  | nil => intro logs h; simpa using h
  | cons l t ih =>
      intro logs h
      rw [List.foldl_cons]
      exact ih _ (by have := appendLog_length logs l; omega)

/-- A ring append onto a buffer at capacity drops exactly the oldest
entry and keeps the new line at the end. -/
theorem appendLog_evicts (logs : List String) (line : String)
    (h : logs.length = 100) : appendLog logs line = logs.tail ++ [line] := by
  unfold appendLog
  have hlen : (logs ++ [line]).length = 101 := by simp [h]
  rw [if_pos (by omega), hlen]
  have h1 : (101 : Nat) - 100 = 1 := by omega
  rw [h1, List.drop_append_of_le_length (by omega), List.drop_one]

/-- C6 amended: the stream readers keep ring-buffer semantics — a ring
append never leaves more than 100 entries, an append at capacity evicts
exactly the oldest entry while the new line is present, buffers within
capacity stay within capacity under any sequence of ring appends, every
stdout line is appended (with its `[OUT] ` prefix) whether it matched or
not, and every nonempty stderr line is appended verbatim whether it
matched or not; only the process-exit and kill-warning bookkeeping
appends bypass the trim. -/
theorem logBuffer_ring_invariant :
    ∀ (logs : List String) (line : String) (lines : List String) (tp : TunnelProcess),
      (appendLog logs line).length ≤ 100 ∧
      (logs.length = 100 → appendLog logs line = logs.tail ++ [line]) ∧
      (logs.length ≤ 100 → (List.foldl appendLog logs lines).length ≤ 100) ∧
      (processStdoutLine tp line).1.Logs = appendLog tp.Logs ("[OUT] " ++ line) ∧
      (line ≠ "" → (processStderrLine tp line).1.Logs = appendLog tp.Logs line) := by
  intro logs line lines tp
  refine ⟨?_, ?_, ?_, rfl, ?_⟩
  · have := appendLog_length logs line
    omega
  · exact appendLog_evicts logs line
  · exact fun h => foldl_appendLog_le lines logs h
  · intro h
    simp [processStderrLine, h]

/-- Witness for the amended C6 at a concrete full buffer. -/
theorem logBuffer_ring_witness :
    (appendLog (List.replicate 100 "a") "b").length ≤ 100 ∧
      appendLog (List.replicate 100 "a") "b" = (List.replicate 100 "a").tail ++ ["b"] ∧
      (List.foldl appendLog [] ["x", "y"]).length ≤ 100 :=
  ⟨(logBuffer_ring_invariant (List.replicate 100 "a") "b" [] sampleProcess).1,
   (logBuffer_ring_invariant (List.replicate 100 "a") "b" [] sampleProcess).2.1
     (by simp),
   (logBuffer_ring_invariant [] "b" ["x", "y"] sampleProcess).2.2.1 (by simp)⟩

/-- C6 counterexample: the process-exit bookkeeping append has no trim,
so a buffer already at capacity 100 grows to 101 entries when the
process exits abnormally. -/
theorem exitAppend_exceeds_capacity :
    100 < (processExitLog (List.replicate 100 "[OUT] x") "signal: killed").length := by
  simp [processExitLog]

/-- Filtering out a key makes its association-list lookup miss. -/
theorem lookup_filter_ne (l : List (Int × TunnelProcess)) (i : Int) :
    (l.filter (fun p => p.1 != i)).lookup i = none := by
  induction l with
  | nil => rfl
  | cons a t ih =>
      by_cases h : a.1 = i
      · have hb : (a.1 != i) = false := by simp [h]
        simpa [List.filter_cons, hb] using ih
      · have hb : (a.1 != i) = true := by simp [h]
        have hb2 : (i == a.1) = false := by
          simp
          exact fun hc => h hc.symm
        simp [List.filter_cons, hb, List.lookup, hb2, ih]

/-- C7: `StopTunnel` on an unknown index fails with `NotRunning` and
returns the manager untouched; on a known index the identity is absent
from the active-tunnel map afterwards and no error is returned, for
every outcome of the process kill and of the Windows port-based
fallback kill. -/
theorem stopTunnel_semantics :
    ∀ (tm : TunnelManager) (index : Int) (killOk isWindows winKillOk : Bool),
      (tm.tunnels.lookup index = none →
        StopTunnel tm index killOk isWindows winKillOk = (tm, some StopErr.notRunning)) ∧
      ((tm.tunnels.lookup index).isSome = true →
        (StopTunnel tm index killOk isWindows winKillOk).1.tunnels.lookup index = none ∧
        (StopTunnel tm index killOk isWindows winKillOk).2 = none) := by
  intro tm index killOk isWindows winKillOk
  constructor
  · intro h
    unfold StopTunnel
    rw [h]
  · intro h
    cases hlk : tm.tunnels.lookup index with
    | none => rw [hlk] at h; cases h
    | some tp =>
        unfold StopTunnel
        rw [hlk]
        exact ⟨lookup_filter_ne tm.tunnels index, rfl⟩

/-- Witness for C7 at the empty manager and at a concrete one-entry
manager with both kill oracles failing. -/
theorem stopTunnel_witness :
    StopTunnel NewTunnelManager 0 true false true =
        (NewTunnelManager, some StopErr.notRunning) ∧
      (StopTunnel sampleTM 0 false true false).1.tunnels.lookup 0 = none ∧
      (StopTunnel sampleTM 0 false true false).2 = none :=
  ⟨(stopTunnel_semantics NewTunnelManager 0 true false true).1 rfl,
   (stopTunnel_semantics sampleTM 0 false true false).2 rfl⟩

/-- C4 counterexample: a renewal whose external command succeeds while
the shared status queue is full publishes no `renewed` event at all (the
drop-on-full send discards it), and when the parsed validity end of the
command output lies before the old expiry the new `ExpiresAt` is not
after the previous one. -/
theorem renewal_success_counterexample :
    (renewCertificate (fun _ => some 0) (900 * nsPerSecond) sampleCert
        (List.replicate 10 sampleEvent) (CmdResult.ok "ok")).2 =
      List.replicate 10 sampleEvent ∧
      (renewCertificate (fun _ => some 0) (900 * nsPerSecond) sampleCert
        (List.replicate 10 sampleEvent) (CmdResult.ok "ok")).1.ExpiresAt <
        sampleCert.ExpiresAt := by
  constructor
  · rfl
  · show (0 : Int) < sampleCert.ExpiresAt
    unfold sampleCert nsPerSecond
    norm_num

/-- C4 amended: on command success `renewCertificate` sets the record to
`valid` (having set `renewing` and the attempt time at the start of the
attempt), sets `ExpiresAt` to the expiry parsed from the command output
— falling back to now plus the 1-hour lifetime when parsing fails, in
which case the new expiry is strictly later whenever the old expiry is
inside the renewal window or in the past — and attempts exactly one
`renewing` publish followed by exactly one `renewed` publish carrying
the new expiry, each silently dropped when the capacity-10 queue is
full. -/
theorem renewal_success_semantics :
    ∀ (parseExpiry : String → Option Int) (now : Int) (cert : CertInfo)
      (q : List CertStatus) (output : String),
      (renewCertificate parseExpiry now cert q (CmdResult.ok output)).1.RenewalStatus = "valid" ∧
      (renewCertificate parseExpiry now cert q (CmdResult.ok output)).1.LastRenewalTry = now ∧
      (renewCertificate parseExpiry now cert q (CmdResult.ok output)).1.ExpiresAt =
        (parseExpiry output).getD (now + CertLifetime) ∧
      (parseExpiry output = none → cert.ExpiresAt ≤ now + RenewalWindow →
        cert.ExpiresAt <
          (renewCertificate parseExpiry now cert q (CmdResult.ok output)).1.ExpiresAt) ∧
      (renewCertificate parseExpiry now cert q (CmdResult.ok output)).2 =
        publishCertStatus
          (publishCertStatus q
            ⟨cert.VMName, "renewing", "Attempting to renew certificate...", 0⟩)
          ⟨cert.VMName, "renewed",
            "Certificate renewed successfully! Expires at: " ++
              toString ((parseExpiry output).getD (now + CertLifetime)),
            (parseExpiry output).getD (now + CertLifetime) - now⟩ := by
  intro p now cert q output
  refine ⟨rfl, rfl, rfl, ?_, rfl⟩
  intro hp hw
  have he : (renewCertificate p now cert q (CmdResult.ok output)).1.ExpiresAt =
      (p output).getD (now + CertLifetime) := rfl
  rw [he, hp]
  unfold CertLifetime RenewalWindow nsPerSecond at *
  simp only [Option.getD]
  omega

/-- Witness for the amended C4: a parse failure inside the renewal
window strictly increases the expiry. -/
theorem renewal_success_witness :
    (renewCertificate (fun _ => none) (800 * nsPerSecond) sampleCert []
        (CmdResult.ok "x")).1.RenewalStatus = "valid" ∧
      sampleCert.ExpiresAt <
        (renewCertificate (fun _ => none) (800 * nsPerSecond) sampleCert []
          (CmdResult.ok "x")).1.ExpiresAt :=
  ⟨(renewal_success_semantics (fun _ => none) (800 * nsPerSecond) sampleCert [] "x").1,
   (renewal_success_semantics (fun _ => none) (800 * nsPerSecond) sampleCert [] "x").2.2.2.1
     rfl (by unfold sampleCert RenewalWindow nsPerSecond; norm_num)⟩

/-- Every fire time of the renewal scheduler is the instant of one of
the first `n` ticker firings. -/
theorem mem_fireTimes (t0 : Int) (obs : Nat → Int × Int) :
    ∀ (n : Nat) (x : Int), x ∈ fireTimes t0 obs n → ∃ k, k < n ∧ x = tickTime t0 k := by
  intro n
  induction n with
  | zero => intro x hx; cases hx
  | succ m ih =>
      intro x hx
      rw [fireTimes] at hx
      rcases List.mem_append.mp hx with hx | hx
      · rcases ih x hx with ⟨k, hk, he⟩
        exact ⟨k, Nat.lt_succ_of_lt hk, he⟩
      · cases hc : shouldRenew (tickTime t0 m) (obs m).1 (obs m).2 with
        | false => rw [hc] at hx; simp at hx
        | true =>
            rw [hc] at hx
            simp only [if_true] at hx
            exact ⟨m, Nat.lt_succ_self m, List.mem_singleton.mp hx⟩

/-- C5: renewal attempts for one identity are started only inside ticker
callbacks spaced `CheckInterval` (60 s) apart, at most one per tick, so
any two distinct attempt start instants differ by at least
`CheckInterval` and hence by at least the 30-second `RenewalRetryDelay`
— whatever expiry and last-attempt values the ticks observe while
concurrent renewals mutate the record. -/
theorem renewal_fires_spaced :
    ∀ (t0 : Int) (obs : Nat → Int × Int) (n : Nat) (x y : Int),
      x ∈ fireTimes t0 obs n → y ∈ fireTimes t0 obs n → x ≠ y →
      RenewalRetryDelay ≤ x - y ∨ RenewalRetryDelay ≤ y - x := by
  intro t0 obs n x y hx hy hne
  rcases mem_fireTimes t0 obs n x hx with ⟨k, hk, rfl⟩
  rcases mem_fireTimes t0 obs n y hy with ⟨j, hj, rfl⟩
  have hkj : k ≠ j := fun h => hne (by rw [h])
  have hkj2 : (k : Int) ≠ (j : Int) := by exact_mod_cast hkj
  have hbase : RenewalRetryDelay ≤ CheckInterval * 1 := by
    unfold RenewalRetryDelay CheckInterval nsPerSecond
    norm_num
  have hpos : (0 : Int) ≤ CheckInterval := by
    unfold CheckInterval nsPerSecond
    norm_num
  rcases lt_or_gt_of_ne hkj2 with h | h
  · right
    have h1 : (1 : Int) ≤ (j : Int) - (k : Int) := by omega
    have h2 : CheckInterval * 1 ≤ CheckInterval * ((j : Int) - (k : Int)) :=
      mul_le_mul_of_nonneg_left h1 hpos
    have hdiff : tickTime t0 j - tickTime t0 k = CheckInterval * ((j : Int) - (k : Int)) := by
      unfold tickTime
      ring
    rw [hdiff]
    exact le_trans hbase h2
  · left
    have h1 : (1 : Int) ≤ (k : Int) - (j : Int) := by omega
    have h2 : CheckInterval * 1 ≤ CheckInterval * ((k : Int) - (j : Int)) :=
      mul_le_mul_of_nonneg_left h1 hpos
    have hdiff : tickTime t0 k - tickTime t0 j = CheckInterval * ((k : Int) - (j : Int)) := by
      unfold tickTime
      ring
    rw [hdiff]
    exact le_trans hbase h2

/-- Witness for C5 on a two-tick run over an always-expired record,
which fires on both ticks. -/
theorem renewal_fires_spaced_witness :
    RenewalRetryDelay ≤ tickTime 0 0 - tickTime 0 1 ∨
      RenewalRetryDelay ≤ tickTime 0 1 - tickTime 0 0 :=
  renewal_fires_spaced 0 (fun _ => (0, 0)) 2 (tickTime 0 0) (tickTime 0 1)
    (by simp [fireTimes, shouldRenew, tickTime, CheckInterval, nsPerSecond])
    (by simp [fireTimes, shouldRenew, tickTime, CheckInterval, nsPerSecond])
    (by unfold tickTime CheckInterval nsPerSecond; norm_num)

/-- C8: the pure status classification yields `expiring_soon` at
4 minutes 59 seconds before expiry, `valid` at 5 minutes 1 second, and
`expired` at every negative remaining duration. -/
theorem getRenewalStatus_thresholds :
    ∀ now d : Int,
      getRenewalStatus now (now + 299 * nsPerSecond) = "expiring_soon" ∧
      getRenewalStatus now (now + 301 * nsPerSecond) = "valid" ∧
      (d < 0 → getRenewalStatus now (now + d) = "expired") := by
  intro now d
  refine ⟨?_, ?_, ?_⟩
  · unfold getRenewalStatus
    have h : now + 299 * nsPerSecond - now = 299 * nsPerSecond := by ring
    rw [h]
    rw [if_neg (by unfold nsPerSecond; norm_num)]
    rw [if_pos (by unfold RenewalWindow nsPerSecond; norm_num)]
  · unfold getRenewalStatus
    have h : now + 301 * nsPerSecond - now = 301 * nsPerSecond := by ring
    rw [h]
    rw [if_neg (by unfold nsPerSecond; norm_num)]
    rw [if_neg (by unfold RenewalWindow nsPerSecond; norm_num)]
  · intro hd
    unfold getRenewalStatus
    have h : now + d - now = d := by ring
    rw [h]
    rw [if_pos (le_of_lt hd)]

/-- Witness for C8 at `now = 0` and remaining duration `-5` ns. -/
theorem getRenewalStatus_thresholds_witness :
    (-5 : Int) < 0 ∧
      getRenewalStatus 0 (0 + 299 * nsPerSecond) = "expiring_soon" ∧
      getRenewalStatus 0 (0 + 301 * nsPerSecond) = "valid" ∧
      getRenewalStatus 0 (0 + (-5)) = "expired" :=
  ⟨by norm_num,
   (getRenewalStatus_thresholds 0 (-5)).1,
   (getRenewalStatus_thresholds 0 (-5)).2.1,
   (getRenewalStatus_thresholds 0 (-5)).2.2 (by norm_num)⟩

/-- C9 counterexample: the bare path `~` begins with `~`, yet its
expansion does not succeed: the Go slice `path[2:]` is out of range
(length 1 < 2) and panics, modelled as `none`. -/
theorem expandHome_bare_tilde_panics :
    strStarts "~" "~" = true ∧ expandHome "/home/user" "~" = none := by
  exact ⟨rfl, rfl⟩

/-- C9 amended: a `~`-prefixed path of at least two bytes is expanded by
joining the home directory with the path after its first two bytes —
for a `~/`-prefixed path this is exactly the remainder after `~/` — and
paths without the `~` prefix pass through unchanged; a bare `~` panics
(the byte after `~`, when not `/`, is silently consumed by the
two-byte slice). -/
theorem expandHome_expansion :
    ∀ (home path rest : String),
      (strStarts path "~" = true → 2 ≤ path.length →
        expandHome home path = some (pathJoin home (strDrop path 2))) ∧
      expandHome home ("~/" ++ rest) = some (pathJoin home rest) ∧
      (strStarts path "~" = false → expandHome home path = some path) := by
  intro home path rest
  refine ⟨?_, ?_, ?_⟩
  · intro h hl
    simp [expandHome, h, Nat.not_lt.mpr hl]
  · obtain ⟨l⟩ := rest
    have hs : strStarts ("~/" ++ (⟨l⟩ : String)) "~" = true := rfl
    have hlen : ¬ ("~/" ++ (⟨l⟩ : String)).length < 2 := by
      show ¬ ('~' :: '/' :: l).length < 2
      simp [List.length_cons]
    simp only [expandHome, hs, if_true, hlen, if_false]
    rfl
  · intro h
    simp [expandHome, h]

/-- Witness for the amended C9 at the concrete path `~/.ssh`. -/
theorem expandHome_expansion_witness :
    expandHome "/home/u" "~/.ssh" = some (pathJoin "/home/u" (strDrop "~/.ssh" 2)) :=
  (expandHome_expansion "/home/u" "~/.ssh" "").1 rfl (by decide)

/-- C10: the per-tick recomputed status is a function of the expiry
alone with codomain `valid`/`expiring_soon`/`expired`; since the stored
transient states `renewing` and `renewal_failed` are outside that
codomain, a tick that observes them always overwrites them with the
time-derived status and attempts one status-changed event, even while
the renewal goroutine that set them is still in flight. -/
theorem tick_overwrites_transient_states :
    ∀ (now : Int) (cert : CertInfo) (q : List CertStatus),
      (getRenewalStatus now cert.ExpiresAt = "valid" ∨
        getRenewalStatus now cert.ExpiresAt = "expiring_soon" ∨
        getRenewalStatus now cert.ExpiresAt = "expired") ∧
      (cert.RenewalStatus = "renewing" ∨ cert.RenewalStatus = "renewal_failed" →
        (certTick now cert q).1.RenewalStatus = getRenewalStatus now cert.ExpiresAt ∧
        (certTick now cert q).2.1 =
          publishCertStatus q
            (mkStatusChangedEvent cert now (getRenewalStatus now cert.ExpiresAt))) := by
  intro now cert q
  have hcod : getRenewalStatus now cert.ExpiresAt = "valid" ∨
      getRenewalStatus now cert.ExpiresAt = "expiring_soon" ∨
      getRenewalStatus now cert.ExpiresAt = "expired" := by
    unfold getRenewalStatus
    by_cases h1 : cert.ExpiresAt - now ≤ 0
    · right; right; rw [if_pos h1]
    · by_cases h2 : cert.ExpiresAt - now ≤ RenewalWindow
      · right; left; rw [if_neg h1, if_pos h2]
      · left; rw [if_neg h1, if_neg h2]
  refine ⟨hcod, ?_⟩
  intro hst
  have hne : getRenewalStatus now cert.ExpiresAt ≠ cert.RenewalStatus := by
    rcases hst with h | h <;> rw [h] <;>
      rcases hcod with hc | hc | hc <;> rw [hc] <;> decide
  simp only [certTick]
  rw [if_pos hne]
  exact ⟨rfl, rfl⟩

/-- Witness for C10: a tick over an expired record stuck in `renewing`
rewrites it to `expired` and attempts the status-changed event. -/
theorem tick_overwrites_witness :
    (certTick (2000 * nsPerSecond) sampleCert []).1.RenewalStatus =
        getRenewalStatus (2000 * nsPerSecond) sampleCert.ExpiresAt ∧
      (certTick (2000 * nsPerSecond) sampleCert []).2.1 =
        publishCertStatus []
          (mkStatusChangedEvent sampleCert (2000 * nsPerSecond)
            (getRenewalStatus (2000 * nsPerSecond) sampleCert.ExpiresAt)) :=
  (tick_overwrites_transient_states (2000 * nsPerSecond) sampleCert []).2 (Or.inl rfl)

end AzBurrow
